import Mathlib

/-!
Verification of the signal-aggregation and trade-validation pipeline of the
cryptomind-ai repository (src/server/progressive-analysis.ts and
src/server/gemini-decision.ts).

Modelling conventions, used throughout:
* JavaScript numbers are modelled as rationals (ℚ); the finiteness checks of
  the source (Number.isFinite) are therefore subsumed by the type.  The one
  place where the degenerate IEEE behaviour of a division by zero matters
  (the Bollinger-band position) is modelled explicitly with a small value
  type `JSVal` carrying the IEEE special values.
* WebSocket stage updates, console logging and `delay` calls are effects that
  do not influence the returned value and are dropped.
* `Math.round(x)` is modelled as `⌊x + 1/2⌋`; `x.toFixed(d)` is modelled by
  rounding `x * 10^d` the same way and printing the digits.
* Display-only fields that merely reformat numbers already present elsewhere
  (the `value` strings of the transparent indicator list, the `details`
  string of the divergence check, the `timestamp`/`open`/`high`/`low` candle
  fields, the indicator echo lists inside `detailedAnalysis`) are omitted.
* A thrown JavaScript exception is modelled as `Except.error`; collaborator
  calls that may throw (fetchMarketData, analyzeMarket) enter the pipeline as
  `Except` valued parameters, and the external oracle (getGeminiPrediction,
  which catches internally and resolves to a decision or null) enters as an
  `Option` valued parameter.
-/

/-- Direction of a signal or prediction: the TS union "UP" | "DOWN" | "NEUTRAL". -/
inductive Direction where
  | UP
  | DOWN
  | NEUTRAL
deriving DecidableEq, Repr

/-- The two-valued direction "UP" | "DOWN" used by the trade-target functions. -/
inductive TradeDir where
  | UP
  | DOWN
deriving DecidableEq, Repr

/-- Trend bias "BULLISH" | "BEARISH" | "NEUTRAL". -/
inductive TrendBias where
  | BULLISH
  | BEARISH
  | NEUTRAL
deriving DecidableEq, Repr

/-- Market regime "STRONG_TRENDING" | "TRENDING" | "RANGING". -/
inductive MarketRegime where
  | STRONG_TRENDING
  | TRENDING
  | RANGING
deriving DecidableEq, Repr

/-- A low/high pair of prices. -/
structure Range where
  low : ℚ
  high : ℚ
deriving DecidableEq, Repr

/-- TradeTargets from @shared/schema: entry range, target range and stop price. -/
structure TradeTargets where
  entry : Range
  target : Range
  stop : ℚ
deriving DecidableEq, Repr

/-- A market candle; only the fields read by the embedded code are kept
(close and volume; open/high/low/timestamp are never inspected). -/
structure Candle where
  close : ℚ
  volume : ℚ
deriving DecidableEq, Repr

/-- Result of fetchMarketData (external collaborator, src/server/crypto-data). -/
structure MarketData where
  currentPrice : ℚ
  priceChange24h : ℚ
  volumeChange24h : ℚ
  candles : List Candle
deriving DecidableEq, Repr

/-- Stochastic oscillator components. -/
structure StochasticInd where
  k : ℚ
  d : ℚ
deriving DecidableEq, Repr

/-- MACD components; only the histogram is read by the embedded code. -/
structure MACDInd where
  histogram : ℚ
deriving DecidableEq, Repr

/-- ADX components. -/
structure ADXInd where
  value : ℚ
  plusDI : ℚ
  minusDI : ℚ
deriving DecidableEq, Repr

/-- Moving averages. -/
structure MovingAverages where
  sma20 : ℚ
  sma50 : ℚ
  sma200 : ℚ
deriving DecidableEq, Repr

/-- Bollinger band components. -/
structure BollingerBandsInd where
  upper : ℚ
  middle : ℚ
  lower : ℚ
  bandwidth : ℚ
deriving DecidableEq, Repr

/-- Support/resistance components. -/
structure SupportResistanceInd where
  nearestSupport : ℚ
  nearestResistance : ℚ
  distanceToSupport : ℚ
  distanceToResistance : ℚ
deriving DecidableEq, Repr

/-- TechnicalIndicators: the snapshot produced by analyzeMarket
(src/server/technical-analysis, an external collaborator). -/
structure TechnicalIndicators where
  rsi : ℚ
  stochastic : StochasticInd
  macd : MACDInd
  adx : ADXInd
  movingAverages : MovingAverages
  bollingerBands : BollingerBandsInd
  supportResistance : SupportResistanceInd
  atr : ℚ
  momentum : ℚ
  roc : ℚ
  volumeIndicator : ℚ
  volumeMA : ℚ
  trendStrength : ℚ
  marketRegime : MarketRegime
  trendBias : TrendBias
deriving DecidableEq, Repr

/-- IEEE value produced by a JavaScript arithmetic operation: a finite number
or one of the special values. -/
inductive JSVal where
  | num : ℚ → JSVal
  | posInf : JSVal
  | negInf : JSVal
  | nan : JSVal
deriving DecidableEq, Repr

/-- Whether a `JSVal` is a finite number. -/
def JSVal.isFinite : JSVal → Bool
  | JSVal.num _ => true
  | _ => false

/-- JavaScript division of two finite numbers, keeping the IEEE behaviour on a
zero divisor: x/0 is +Infinity, -Infinity or NaN depending on the sign of x. -/
def jsDiv (a b : ℚ) : JSVal :=
  if b = 0 then
    if a = 0 then JSVal.nan
    else if 0 < a then JSVal.posInf
    else JSVal.negInf
  else JSVal.num (a / b)

/-- JavaScript `<` comparison of a possibly special value against a finite
number: any comparison with NaN is false. -/
def jsLtQ : JSVal → ℚ → Bool
  | JSVal.num a, q => decide (a < q)
  | JSVal.posInf, _ => false
  | JSVal.negInf, _ => true
  | JSVal.nan, _ => false

/-- JavaScript `>` comparison of a possibly special value against a finite
number: any comparison with NaN is false. -/
def jsGtQ : JSVal → ℚ → Bool
  | JSVal.num a, q => decide (q < a)
  | JSVal.posInf, _ => true
  | JSVal.negInf, _ => false
  | JSVal.nan, _ => false

/-- Math.round on a finite number: floor of x + 1/2. -/
def jsRound (q : ℚ) : ℤ := ⌊q + 1 / 2⌋

/-- Pad a digit string on the left with zeros up to the given length. -/
def padZeros (s : String) (len : ℕ) : String :=
  if s.length ≥ len then s
  else String.mk (List.replicate (len - s.length) '0') ++ s

/-- Model of Number.prototype.toFixed: round to `digits` decimal digits and
print (display strings only; the exact IEEE tie behaviour is out of scope). -/
def toFixed (digits : ℕ) (q : ℚ) : String :=
  let scaled : ℤ := jsRound (q * ((10 : ℤ) ^ digits : ℤ))
  let a : ℕ := scaled.natAbs
  let ip : ℕ := a / 10 ^ digits
  let fp : ℕ := a % 10 ^ digits
  (if scaled < 0 then "-" else "") ++ toString ip ++
    (if digits = 0 then "" else "." ++ padZeros (toString fp) digits)

/-- computeFallbackTradeTargets (progressive-analysis.ts lines 464-497). -/
def computeFallbackTradeTargets (direction : TradeDir) (currentPrice atr : ℚ) :
    TradeTargets :=
  let safeAtr := max |atr| (|currentPrice| * 0.002)
  let entryBand := safeAtr * 0.25
  match direction with
  | TradeDir.UP =>
    let entryLow := currentPrice - entryBand
    let entryHigh := currentPrice + entryBand * 0.5
    { entry := { low := min entryLow entryHigh, high := max entryLow entryHigh }
      target := { low := currentPrice + safeAtr * 1.5, high := currentPrice + safeAtr * 2.4 }
      stop := entryLow - safeAtr * 1.05 }
  | TradeDir.DOWN =>
    let entryLow := currentPrice - entryBand * 0.5
    let entryHigh := currentPrice + entryBand
    { entry := { low := min entryLow entryHigh, high := max entryLow entryHigh }
      target := { low := currentPrice - safeAtr * 2.4, high := currentPrice - safeAtr * 1.5 }
      stop := entryHigh + safeAtr * 1.05 }

/-- normalizeTradeTargets (progressive-analysis.ts lines 718-769).  The TS
function takes `unknown` and returns null when the candidate is missing or has
a missing or non-finite numeric field; over ℚ those rejections collapse into
the `none` case of the `Option` input.  The mutable `stop` variable of the
source (`if (!(stop < entryLow)) stop = fallback.stop;`) is expressed as the
equivalent conditional. -/
def normalizeTradeTargets (maybeTargets : Option TradeTargets) (direction : TradeDir)
    (currentPrice atr : ℚ) : Option TradeTargets :=
  match maybeTargets with
  | none => none
  | some t =>
    let entryLow := min t.entry.low t.entry.high
    let entryHigh := max t.entry.low t.entry.high
    let targetLow := min t.target.low t.target.high
    let targetHigh := max t.target.low t.target.high
    let fallback := computeFallbackTradeTargets direction currentPrice atr
    match direction with
    | TradeDir.UP =>
      let stop := if t.stop < entryLow then t.stop else fallback.stop
      if ¬ targetHigh > entryHigh then some fallback
      else some { entry := { low := entryLow, high := entryHigh }
                  target := { low := targetLow, high := targetHigh }
                  stop := stop }
    | TradeDir.DOWN =>
      let stop := if t.stop > entryHigh then t.stop else fallback.stop
      if ¬ targetLow < entryLow then some fallback
      else some { entry := { low := entryLow, high := entryHigh }
                  target := { low := targetLow, high := targetHigh }
                  stop := stop }

/-- Result of checkVolumeConfirmation.  The TS field `ratio` is rendered as
`ratioVal`. -/
structure VolumeConfirmation where
  passes : Bool
  reason : String
  ratioVal : ℚ
deriving DecidableEq, Repr

/-- checkVolumeConfirmation (progressive-analysis.ts lines 503-518). -/
def checkVolumeConfirmation (currentVolume volumeMA : ℚ) : VolumeConfirmation :=
  let r := if volumeMA > 0 then currentVolume / volumeMA else 1
  let passes : Bool := decide (r ≥ 1.1)
  { passes := passes
    reason :=
      if passes then "Volume confirmed: " ++ toFixed 2 r ++ "x MA (≥1.1x threshold)"
      else "Volume low: " ++ toFixed 2 r ++ "x MA (<1.1x threshold)"
    ratioVal := r }

/-- Result of checkVolumeDivergence.  The `details` string, which only
reformats the two numbers already compared, is omitted. -/
structure DivergenceCheck where
  hasDivergence : Bool
  reason : String
deriving DecidableEq, Repr

/-- checkVolumeDivergence (progressive-analysis.ts lines 523-568):
slice(-5) the candles, then compare the last two. -/
def checkVolumeDivergence (candles : List Candle) (direction : Direction) :
    DivergenceCheck :=
  if candles.length < 5 then
    { hasDivergence := false, reason := "Not enough data for divergence check" }
  else
    let recentCandles := candles.drop (candles.length - 5)
    let currentCandle := recentCandles.getD (recentCandles.length - 1) ⟨0, 0⟩
    let prevCandle := recentCandles.getD (recentCandles.length - 2) ⟨0, 0⟩
    if direction = Direction.UP ∧ currentCandle.close > prevCandle.close ∧
        currentCandle.volume < prevCandle.volume then
      { hasDivergence := true, reason := "Weak Breakout: Price rising on declining volume" }
    else if direction = Direction.DOWN ∧ currentCandle.close < prevCandle.close ∧
        currentCandle.volume < prevCandle.volume then
      { hasDivergence := true, reason := "Weak Breakdown: Price falling on declining volume" }
    else
      { hasDivergence := false, reason := "No volume divergence detected" }

/-- Result of checkRSINeutralZone. -/
structure RSINeutralCheck where
  isNeutral : Bool
  reason : String
deriving DecidableEq, Repr

/-- checkRSINeutralZone (progressive-analysis.ts lines 573-587). -/
def checkRSINeutralZone (rsi : ℚ) : RSINeutralCheck :=
  if rsi ≥ 48 ∧ rsi ≤ 52 then
    { isNeutral := true, reason := "RSI in tight neutral zone (" ++ toFixed 1 rsi ++ ")" }
  else
    { isNeutral := false, reason := "RSI " ++ toFixed 1 rsi ++ " - directional momentum" }

/-- Result of checkTrendAlignment. -/
structure TrendAlignmentResult where
  aligned : Bool
  reason : String
deriving DecidableEq, Repr

/-- Printed form of a trend bias, used by the alignment reason strings. -/
def TrendBias.toLabel : TrendBias → String
  | TrendBias.BULLISH => "BULLISH"
  | TrendBias.BEARISH => "BEARISH"
  | TrendBias.NEUTRAL => "NEUTRAL"

/-- checkTrendAlignment (progressive-analysis.ts lines 593-638). -/
def checkTrendAlignment (entryTrendBias anchorTrendBias : TrendBias)
    (entryDirection : Direction) : TrendAlignmentResult :=
  let entryBiasFromDirection :=
    match entryDirection with
    | Direction.UP => TrendBias.BULLISH
    | Direction.DOWN => TrendBias.BEARISH
    | Direction.NEUTRAL => TrendBias.NEUTRAL
  if anchorTrendBias = TrendBias.NEUTRAL then
    { aligned := true, reason := "Anchor trend neutral - proceeding with caution" }
  else if entryBiasFromDirection = TrendBias.NEUTRAL then
    { aligned := true, reason := "Entry direction neutral - proceeding" }
  else if entryBiasFromDirection = anchorTrendBias then
    { aligned := true
      reason := "Trend aligned: Entry (" ++ entryBiasFromDirection.toLabel ++
        ") matches Anchor (" ++ anchorTrendBias.toLabel ++ ")" }
  else
    { aligned := false
      reason := "Trend Conflict: Entry (" ++ entryBiasFromDirection.toLabel ++
        ") conflicts with Anchor (" ++ anchorTrendBias.toLabel ++ ") - Entry rejected" }

/-- The outcome of the validation rule chain. -/
structure ValidationOutcome where
  confidence : ℚ
  shouldProceed : Bool
  rejectionReason : Option String
deriving DecidableEq, Repr

/-- calculateValidatedConfidence (progressive-analysis.ts lines 644-716): the
six validation rules, evaluated in order with the first failing rule short-
circuiting.  The TS parameter `volumeRatio` is rendered as `volumeRatioVal`
and `trendAlignment`/`rsiNeutral`/`hasVolumeDivergence` keep their names. -/
def calculateValidatedConfidence (baseConfidence volumeRatioVal adxValue : ℚ)
    (trendAlignment rsiNeutral hasVolumeDivergence : Bool) : ValidationOutcome :=
  if baseConfidence < 80 then
    { confidence := baseConfidence
      shouldProceed := false
      rejectionReason := some ("Confidence below minimum threshold (" ++
        toString baseConfidence ++ "% < 80%)") }
  else if trendAlignment = false ∧ baseConfidence < 82 then
    { confidence := baseConfidence
      shouldProceed := false
      rejectionReason :=
        some "Trend Conflict: Counter-trend setups require higher confidence (>82%)" }
  else if volumeRatioVal < 1.1 ∧ baseConfidence < 85 then
    { confidence := baseConfidence
      shouldProceed := false
      rejectionReason := some ("Low volume (" ++ toFixed 2 volumeRatioVal ++
        "x) requires higher baseline confidence") }
  else if hasVolumeDivergence = true ∧ baseConfidence < 85 then
    { confidence := baseConfidence
      shouldProceed := false
      rejectionReason := some "Volume divergence detected - weak breakout/breakdown" }
  else if rsiNeutral = true ∧ baseConfidence < 80 then
    { confidence := baseConfidence
      shouldProceed := false
      rejectionReason := some "RSI in neutral zone - low momentum setup" }
  else if adxValue < 15 then
    { confidence := baseConfidence
      shouldProceed := false
      rejectionReason := some "ADX < 15 - Extremely ranging market, no edge detected" }
  else
    { confidence := min 98 baseConfidence
      shouldProceed := true
      rejectionReason := none }

/-- WeightedSignal (from src/server/ai-prediction types): direction, strength,
weight, rationale and category. -/
structure WeightedSignal where
  direction : Direction
  strength : ℚ
  weight : ℚ
  reason : String
  category : String
deriving DecidableEq, Repr

/-- The Bollinger position (price - lower) / (upper - lower) of
progressive-analysis.ts line 136, with the IEEE behaviour of the division
kept: there is no guard on upper = lower in the source. -/
def bbPositionJS (price lower upper : ℚ) : JSVal :=
  jsDiv (price - lower) (upper - lower)

/-- Direction branch of the Bollinger signal (line 138). -/
def bbDirection (price lower upper : ℚ) : Direction :=
  if jsLtQ (bbPositionJS price lower upper) 0.1 then Direction.UP
  else if jsGtQ (bbPositionJS price lower upper) 0.9 then Direction.DOWN
  else Direction.NEUTRAL

/-- Strength branch of the Bollinger signal (line 139). -/
def bbStrength (price lower upper : ℚ) : ℚ :=
  if jsLtQ (bbPositionJS price lower upper) 0.1 ∨ jsGtQ (bbPositionJS price lower upper) 0.9
  then 75 else 50

/-- Reason branch of the Bollinger signal (line 141). -/
def bbReason (price lower upper : ℚ) : String :=
  if jsLtQ (bbPositionJS price lower upper) 0.1 then "Price near lower Bollinger Band"
  else if jsGtQ (bbPositionJS price lower upper) 0.9 then "Price near upper Bollinger Band"
  else "Price at BB middle"

/-- The Indicator Signal Mapper of generateProgressivePrediction
(progressive-analysis.ts lines 97-187): the eight WeightedSignals built from
the indicator snapshot and the current price, in source order. -/
def progressiveSignals (currentPrice : ℚ) (indicators : TechnicalIndicators) :
    List WeightedSignal :=
  let rsiValue := indicators.rsi
  let rsiSignal : WeightedSignal :=
    { direction :=
        if rsiValue < 30 then Direction.UP
        else if rsiValue > 70 then Direction.DOWN
        else Direction.NEUTRAL
      strength := if rsiValue < 30 then 85 else if rsiValue > 70 then 85 else 50
      weight := 1.2
      reason :=
        if rsiValue < 30 then "Oversold - Strong bullish signal"
        else if rsiValue > 70 then "Overbought - Strong bearish signal"
        else "Neutral range"
      category := "MOMENTUM" }
  let stochasticK := indicators.stochastic.k
  let stochasticD := indicators.stochastic.d
  let stochasticSignal : WeightedSignal :=
    { direction :=
        if stochasticK < 20 ∧ stochasticD < 20 then Direction.UP
        else if stochasticK > 80 ∧ stochasticD > 80 then Direction.DOWN
        else Direction.NEUTRAL
      strength :=
        if (stochasticK < 20 ∧ stochasticD < 20) ∨ (stochasticK > 80 ∧ stochasticD > 80)
        then 90 else 50
      weight := 1.2
      reason :=
        if stochasticK < 20 ∧ stochasticD < 20 then "Oversold conditions"
        else if stochasticK > 80 ∧ stochasticD > 80 then "Overbought conditions"
        else "Stochastic neutral"
      category := "MOMENTUM" }
  let macdHistogram := indicators.macd.histogram
  let macdSignal : WeightedSignal :=
    { direction := if macdHistogram > 0 then Direction.UP else Direction.DOWN
      strength := if |macdHistogram| > 0.001 then 75 else 50
      weight := 1.4
      reason :=
        if macdHistogram > 0 then "MACD strong bullish momentum"
        else "MACD strong bearish momentum"
      category := "TREND" }
  let maSignal : WeightedSignal :=
    { direction :=
        if currentPrice > indicators.movingAverages.sma50 then Direction.UP
        else Direction.DOWN
      strength := 65
      weight := 1.3
      reason :=
        if currentPrice > indicators.movingAverages.sma50 then "Price above SMA50 - bullish"
        else "Price below SMA50 - bearish"
      category := "TREND" }
  let bbLower := indicators.bollingerBands.lower
  let bbUpper := indicators.bollingerBands.upper
  let bbSignal : WeightedSignal :=
    { direction := bbDirection currentPrice bbLower bbUpper
      strength := bbStrength currentPrice bbLower bbUpper
      weight := 1.1
      reason := bbReason currentPrice bbLower bbUpper
      category := "VOLATILITY" }
  let adxPlusDI := indicators.adx.plusDI
  let adxMinusDI := indicators.adx.minusDI
  let adxValue := indicators.adx.value
  let adxSignal : WeightedSignal :=
    { direction :=
        if adxValue > 50 ∧ adxPlusDI > adxMinusDI then Direction.UP
        else if adxValue > 50 ∧ adxMinusDI > adxPlusDI then Direction.DOWN
        else Direction.NEUTRAL
      strength := if adxValue > 50 then 80 else if adxValue > 30 then 60 else 30
      weight := 1.4
      reason :=
        if adxValue > 50 ∧ adxPlusDI > adxMinusDI then "Very strong uptrend"
        else if adxValue > 50 ∧ adxMinusDI > adxPlusDI then "Very strong downtrend"
        else "Weak trend, ranging market"
      category := "TREND" }
  let momentum := indicators.momentum
  let roc := indicators.roc
  let momentumSignal : WeightedSignal :=
    { direction :=
        if momentum > 3 ∧ roc > 3 then Direction.UP
        else if momentum < -3 ∧ roc < -3 then Direction.DOWN
        else Direction.NEUTRAL
      strength :=
        if (momentum > 3 ∧ roc > 3) ∨ (momentum < -3 ∧ roc < -3) then 85 else 50
      weight := 1.2
      reason :=
        if momentum > 3 ∧ roc > 3 then "Strong bullish momentum"
        else if momentum < -3 ∧ roc < -3 then "Strong bearish momentum"
        else "Momentum neutral"
      category := "MOMENTUM" }
  let distanceToSupport := indicators.supportResistance.distanceToSupport
  let distanceToResistance := indicators.supportResistance.distanceToResistance
  let srSignal : WeightedSignal :=
    { direction :=
        if distanceToSupport < 1.5 then Direction.UP
        else if distanceToResistance < 1.5 then Direction.DOWN
        else Direction.NEUTRAL
      strength := if distanceToSupport < 1.5 ∨ distanceToResistance < 1.5 then 65 else 50
      weight := 1.1
      reason :=
        if distanceToSupport < 1.5 then "Price near support level"
        else if distanceToResistance < 1.5 then "Price near resistance level"
        else "Price between support and resistance"
      category := "Price Action" }
  [rsiSignal, stochasticSignal, macdSignal, maSignal, bbSignal, adxSignal,
    momentumSignal, srSignal]

/-- UP score of generateProgressivePrediction (line 215): sum of
strength * weight over the UP-filtered signals. -/
def upScoreProg (signals : List WeightedSignal) : ℚ :=
  (signals.filter (fun s => decide (s.direction = Direction.UP))).foldl
    (fun sum s => sum + s.strength * s.weight) 0

/-- DOWN score of generateProgressivePrediction (line 216). -/
def downScoreProg (signals : List WeightedSignal) : ℚ :=
  (signals.filter (fun s => decide (s.direction = Direction.DOWN))).foldl
    (fun sum s => sum + s.strength * s.weight) 0

/-- Signal alignment of generateProgressivePrediction (lines 217-220): the
numerator is the length of whichever side has the larger score, the
denominator the number of directional signals, with 0 on an empty set. -/
def signalAlignmentProg (signals : List WeightedSignal) : ℚ :=
  let upSignals := signals.filter (fun s => decide (s.direction = Direction.UP))
  let downSignals := signals.filter (fun s => decide (s.direction = Direction.DOWN))
  let totalSignals := upSignals.length + downSignals.length
  if totalSignals > 0 then
    (((if upScoreProg signals > downScoreProg signals then upSignals.length
       else downSignals.length) : ℚ) / (totalSignals : ℚ)) * 100
  else 0

/-- The signal-alignment formula as the specification words it:
max(upCount, downCount) over the number of directional signals, times 100,
and 0 when there are no directional signals.  Stated for comparison with the
two implementations. -/
def signalAlignmentClaimed (upCount downCount : ℕ) : ℚ :=
  if upCount + downCount = 0 then 0
  else ((max upCount downCount : ℕ) : ℚ) / ((upCount + downCount : ℕ) : ℚ) * 100

/-- GeminiPredictionDecision (gemini-decision.ts lines 13-22). -/
structure GeminiDecision where
  direction : Direction
  confidence : ℚ
  rationale : String
  riskFactors : List String
  thinkingProcess : Option String
  keyFactors : Option (List String)
  tradeTargets : Option TradeTargets
  duration : Option String
deriving DecidableEq, Repr

/-- The confidence clamp applied to every successfully parsed oracle response
(gemini-decision.ts line 158):
Math.round(Math.max(90, Math.min(98, confidence))). -/
def clampGeminiConfidence (c : ℚ) : ℚ :=
  ((jsRound (max 90 (min 98 c)) : ℤ) : ℚ)

/-- callGeminiModelStreaming post-processing of a parsed decision: the
confidence field is replaced by its clamped, rounded value. -/
def applyConfidenceClamp (d : GeminiDecision) : GeminiDecision :=
  { d with confidence := clampGeminiConfidence d.confidence }

/-- One entry of the transparent indicator list.  The display-only `value`
string is omitted. -/
structure TechSignal where
  name : String
  signal : Direction
  strength : ℚ
  category : String
  description : String
deriving DecidableEq, Repr

/-- technicalIndicatorsList of generateTransparentPrediction
(progressive-analysis.ts lines 852-925): the nine indicator entries built
from the snapshot, the market data and the current price, in source order. -/
def technicalIndicatorsList (marketData : MarketData)
    (indicators : TechnicalIndicators) : List TechSignal :=
  [ { name := "RSI"
      signal :=
        if indicators.rsi < 30 then Direction.UP
        else if indicators.rsi > 70 then Direction.DOWN
        else Direction.NEUTRAL
      strength := if indicators.rsi < 30 then 85 else if indicators.rsi > 70 then 85 else 50
      category := "MOMENTUM"
      description :=
        if indicators.rsi < 30 then "Oversold - Strong bullish signal"
        else if indicators.rsi > 70 then "Overbought - Strong bearish signal"
        else "Neutral range" },
    { name := "Stochastic K/D"
      signal :=
        if indicators.stochastic.k < 20 then Direction.UP
        else if indicators.stochastic.k > 80 then Direction.DOWN
        else Direction.NEUTRAL
      strength :=
        if indicators.stochastic.k < 20 then 90
        else if indicators.stochastic.k > 80 then 90 else 50
      category := "MOMENTUM"
      description :=
        if indicators.stochastic.k < 20 then "Oversold conditions"
        else if indicators.stochastic.k > 80 then "Overbought conditions"
        else "Neutral momentum" },
    { name := "MACD"
      signal := if indicators.macd.histogram > 0 then Direction.UP else Direction.DOWN
      strength := if |indicators.macd.histogram| > 0.001 then 75 else 50
      category := "TREND"
      description :=
        if indicators.macd.histogram > 0 then "Bullish crossover detected"
        else "Bearish trend" },
    { name := "ADX"
      signal :=
        if indicators.adx.plusDI > indicators.adx.minusDI then Direction.UP
        else Direction.DOWN
      strength :=
        if indicators.adx.value > 40 then 85
        else if indicators.adx.value > 25 then 70 else 50
      category := "TREND"
      description :=
        if indicators.adx.value > 40 then "STRONG TREND confirmed"
        else if indicators.adx.value > 25 then "Trending market" else "Weak trend" },
    { name := "SMA 20/50/200"
      signal :=
        if marketData.currentPrice > indicators.movingAverages.sma50 then Direction.UP
        else Direction.DOWN
      strength := 67
      category := "TREND"
      description :=
        if marketData.currentPrice > indicators.movingAverages.sma50 then
          "Price above SMA50 - bullish"
        else "Price below SMA50 - bearish" },
    { name := "Bollinger Bands"
      signal :=
        if marketData.currentPrice < indicators.bollingerBands.lower then Direction.UP
        else if marketData.currentPrice > indicators.bollingerBands.upper then Direction.DOWN
        else Direction.NEUTRAL
      strength :=
        if marketData.currentPrice < indicators.bollingerBands.lower then 75
        else if marketData.currentPrice > indicators.bollingerBands.upper then 75
        else 50
      category := "VOLATILITY"
      description :=
        if marketData.currentPrice < indicators.bollingerBands.lower then
          "At lower band - potential bounce"
        else if marketData.currentPrice > indicators.bollingerBands.upper then
          "At upper band - potential reversal"
        else "Mid-range" },
    { name := "Volume Trend"
      signal := if marketData.volumeChange24h > 10 then Direction.UP else Direction.NEUTRAL
      strength := if |marketData.volumeChange24h| > 15 then 80 else 60
      category := "VOLUME"
      description :=
        if marketData.volumeChange24h > 10 then "Strong volume confirmation"
        else "Normal volume" },
    { name := "Momentum"
      signal := if indicators.momentum > 0 then Direction.UP else Direction.DOWN
      strength := if |indicators.momentum| > 2 then 70 else 50
      category := "MOMENTUM"
      description :=
        if indicators.momentum > 2 then "Building upward pressure"
        else if indicators.momentum < -2 then "Downward pressure"
        else "Neutral momentum" },
    { name := "ROC"
      signal := if indicators.roc > 0 then Direction.UP else Direction.DOWN
      strength := if |indicators.roc| > 1.5 then 70 else 50
      category := "MOMENTUM"
      description :=
        if indicators.roc > 1.5 then "Confirming upward momentum"
        else if indicators.roc < -1.5 then "Confirming downward momentum"
        else "Neutral" } ]

/-- UP score of generateTransparentPrediction (line 957): sum of strengths
(unweighted) over the UP-filtered entries. -/
def upScoreTrans (lst : List TechSignal) : ℚ :=
  (lst.filter (fun s => decide (s.signal = Direction.UP))).foldl
    (fun sum s => sum + s.strength) 0

/-- DOWN score of generateTransparentPrediction (line 958). -/
def downScoreTrans (lst : List TechSignal) : ℚ :=
  (lst.filter (fun s => decide (s.signal = Direction.DOWN))).foldl
    (fun sum s => sum + s.strength) 0

/-- Signal alignment of generateTransparentPrediction (lines 960-961):
max(upCount, downCount) over the length of the WHOLE indicator list
(directional and neutral entries alike), times 100. -/
def signalAlignmentTrans (lst : List TechSignal) : ℚ :=
  (((max (lst.filter (fun s => decide (s.signal = Direction.UP))).length
        (lst.filter (fun s => decide (s.signal = Direction.DOWN))).length : ℕ) : ℚ) /
    ((lst.length : ℕ) : ℚ)) * 100

/-- Printed form of a direction, used in synthesized explanation strings. -/
def Direction.toLabel : Direction → String
  | Direction.UP => "UP"
  | Direction.DOWN => "DOWN"
  | Direction.NEUTRAL => "NEUTRAL"

/-- Printed form of a market regime. -/
def MarketRegime.toLabel : MarketRegime → String
  | MarketRegime.STRONG_TRENDING => "STRONG_TRENDING"
  | MarketRegime.TRENDING => "TRENDING"
  | MarketRegime.RANGING => "RANGING"

/-- getDurationBasedOnTimeframe (progressive-analysis.ts lines 1094-1110). -/
def getDurationBasedOnTimeframe (tf : String) : String :=
  if tf = "M1" then "1-2 minutes"
  else if tf = "M3" then "3-5 minutes"
  else if tf = "M5" then "5-8 minutes"
  else if tf = "M15" then "15-20 minutes"
  else if tf = "M30" then "30-45 minutes"
  else if tf = "M45" then "45-60 minutes"
  else if tf = "H1" then "1-2 hours"
  else if tf = "H2" then "2-4 hours"
  else if tf = "H3" then "3-5 hours"
  else if tf = "H4" then "4-6 hours"
  else if tf = "D1" then "1-2 days"
  else if tf = "W1" then "1-2 weeks"
  else "1-2 minutes"

/-- The confidenceBreakdown audit object attached to detailedAnalysis. -/
structure ConfidenceBreakdown where
  baseScore : ℚ
  volumeBonus : ℚ
  regimeBonus : ℚ
  alignmentPenalty : ℚ
  qualityBoost : ℚ
  rawScore : ℚ
  finalConfidence : ℚ
deriving DecidableEq, Repr

/-- The detailedAnalysis payload of a Prediction.  Fields absent in some of
the source objects are Options; the echo lists of indicator signals (pure
re-display of the already-modelled signal lists) are omitted. -/
structure DetailedAnalysis where
  upScore : Option ℚ
  downScore : Option ℚ
  signalAlignment : Option ℚ
  qualityScore : ℚ
  marketRegime : Option MarketRegime
  confidenceBreakdown : Option ConfidenceBreakdown
  thinkingProcess : Option String
  keyFactors : Option (List String)
deriving DecidableEq, Repr

/-- The externally visible Prediction record (type from src/server/ai-prediction,
whose declaration is outside the provided sources; optionality follows the
objects actually constructed in progressive-analysis.ts). -/
structure Prediction where
  pair : String
  direction : Direction
  confidence : ℚ
  duration : Option String
  analysis : Option String
  rationale : Option String
  riskFactors : Option (List String)
  tradeTargets : Option TradeTargets
  detailedAnalysis : Option DetailedAnalysis
deriving DecidableEq, Repr

/-- The catch-branch placeholder of generateProgressivePrediction
(progressive-analysis.ts lines 408-418). -/
def progressiveErrorPrediction (pair : String) : Prediction :=
  { pair := pair
    direction := Direction.NEUTRAL
    confidence := 0
    duration := some "Data unavailable"
    analysis := some ("Market data service temporarily unavailable. Cannot perform technical analysis for "
      ++ pair ++ ". Please try again in a moment when live market data is restored.")
    rationale := none
    riskFactors := none
    tradeTargets := none
    detailedAnalysis := some
      { upScore := none, downScore := none, signalAlignment := none
        qualityScore := 0, marketRegime := none, confidenceBreakdown := none
        thinkingProcess := none, keyFactors := some ["Data collection error"] } }

/-- The neutral fallback of generateProgressivePrediction when the oracle is
null or answers NEUTRAL (lines 382-392). -/
def progressiveNeutralFallback (pair : String) : Prediction :=
  { pair := pair
    direction := Direction.NEUTRAL
    confidence := 0
    duration := some "Waiting for setup"
    analysis := some "Market conditions unclear. Waiting for stronger setup."
    rationale := none
    riskFactors := none
    tradeTargets := none
    detailedAnalysis := some
      { upScore := none, downScore := none, signalAlignment := none
        qualityScore := 0, marketRegime := none, confidenceBreakdown := none
        thinkingProcess := none, keyFactors := some ["Insufficient confluence"] } }

/-- generateProgressivePrediction (progressive-analysis.ts lines 29-420).
The entire body is wrapped in try/catch, so a failure of the market-data
fetch or of the indicator computation lands in the catch branch and still
produces a Prediction; the function can never surface an exception. -/
def generateProgressivePrediction (pair : String)
    (fetchResult : Except String MarketData)
    (analyzeResult : MarketData → Except String TechnicalIndicators)
    (geminiResult : Option GeminiDecision) : Except String Prediction :=
  Except.ok (match fetchResult with
  | Except.error _ => progressiveErrorPrediction pair
  | Except.ok marketData =>
    match analyzeResult marketData with
    | Except.error _ => progressiveErrorPrediction pair
    | Except.ok indicators =>
      let signals := progressiveSignals marketData.currentPrice indicators
      let upScore := upScoreProg signals
      let downScore := downScoreProg signals
      let signalAlignment := signalAlignmentProg signals
      let volumeBonus : ℚ :=
        if indicators.volumeIndicator > 20 then 25
        else if indicators.volumeIndicator > 10 then 15 else 0
      let regimeMultiplier : ℚ :=
        match indicators.marketRegime with
        | MarketRegime.STRONG_TRENDING => 1.15
        | MarketRegime.TRENDING => 1.05
        | MarketRegime.RANGING => 0.9
      match geminiResult with
      | some g =>
        if g.direction ≠ Direction.NEUTRAL then
          let qualityScore : ℚ :=
            ((jsRound (signalAlignment * 0.4 + (g.confidence - 70) / 29 * 60) : ℤ) : ℚ)
          { pair := pair
            direction := g.direction
            confidence := g.confidence
            duration := g.duration
            analysis := none
            rationale := some g.rationale
            riskFactors := some g.riskFactors
            tradeTargets := g.tradeTargets
            detailedAnalysis := some
              { upScore := some upScore
                downScore := some downScore
                signalAlignment := some ((jsRound signalAlignment : ℤ) : ℚ)
                qualityScore := qualityScore
                marketRegime := some indicators.marketRegime
                confidenceBreakdown := some
                  { baseScore := if upScore > downScore then upScore else downScore
                    volumeBonus := volumeBonus
                    regimeBonus := (regimeMultiplier - 1) * 100
                    alignmentPenalty :=
                      if signalAlignment < 85 then (85 - signalAlignment) * 1.2 else 0
                    qualityBoost :=
                      if signalAlignment ≥ 95 then 3
                      else if signalAlignment ≥ 88 then 2 else 0
                    rawScore :=
                      if upScore > downScore then upScore + volumeBonus
                      else downScore + volumeBonus
                    finalConfidence := g.confidence }
                thinkingProcess := g.thinkingProcess
                keyFactors := g.keyFactors } }
        else progressiveNeutralFallback pair
      | none => progressiveNeutralFallback pair)

/-- generateTransparentPrediction (progressive-analysis.ts lines 771-1313).
Unlike generateProgressivePrediction, the body has NO surrounding try/catch:
the primary fetchMarketData call (line 796) and analyzeMarket (line 827) are
awaited outside any try block, so their failures propagate to the caller
(`Except.error`).  Only the anchor-timeframe fetch (lines 836-841) is inside
a try/catch that degrades to a null anchor snapshot.  The `||` defaulting of
JavaScript on numbers and strings is modelled by comparing against 0 and "";
`rejectionReason` being printed into the explanation template would render as
"null" when absent, hence the `getD "null"`. -/
def generateTransparentPrediction (pair timeframe : String)
    (fetchResult : Except String MarketData)
    (analyzeResult : MarketData → Except String TechnicalIndicators)
    (anchorFetchResult : Except String MarketData)
    (geminiResult : Option GeminiDecision) : Except String Prediction :=
  match fetchResult with
  | Except.error e => Except.error e
  | Except.ok marketData =>
    match analyzeResult marketData with
    | Except.error e => Except.error e
    | Except.ok indicators =>
      let anchorIndicators : Option TechnicalIndicators :=
        match anchorFetchResult with
        | Except.error _ => none
        | Except.ok anchorData =>
          match analyzeResult anchorData with
          | Except.error _ => none
          | Except.ok anchorInd => some anchorInd
      let lst := technicalIndicatorsList marketData indicators
      let upSignals := lst.filter (fun s => decide (s.signal = Direction.UP))
      let downSignals := lst.filter (fun s => decide (s.signal = Direction.DOWN))
      let upScore := upScoreTrans lst
      let downScore := downScoreTrans lst
      let totalSignals := lst.length
      let signalAlignment := signalAlignmentTrans lst
      let direction0 : Direction :=
        match geminiResult with
        | some g => g.direction
        | none => if upScore > downScore then Direction.UP else Direction.DOWN
      let internalConfidence : ℚ :=
        ((jsRound (min 95 (signalAlignment * 0.8 + indicators.trendStrength * 0.2)) : ℤ) : ℚ)
      let confidence0 : ℚ :=
        match geminiResult with
        | some g => if g.confidence = 0 then internalConfidence else g.confidence
        | none => internalConfidence
      let duration := getDurationBasedOnTimeframe timeframe
      let qualityScore : ℚ :=
        ((jsRound ((signalAlignment + indicators.trendStrength) / 2) : ℤ) : ℚ)
      let currentVolume : ℚ :=
        match marketData.candles.getLast? with
        | some lastCandle => lastCandle.volume
        | none => 0
      let volumeConfirmation := checkVolumeConfirmation currentVolume indicators.volumeMA
      let volumeDivergence := checkVolumeDivergence marketData.candles direction0
      let rsiNeutralCheck := checkRSINeutralZone indicators.rsi
      let anchorTrendValidationResult : TrendAlignmentResult :=
        match anchorIndicators with
        | some anchorInd =>
          checkTrendAlignment indicators.trendBias anchorInd.trendBias direction0
        | none => { aligned := true, reason := "No anchor check performed" }
      let validationResult := calculateValidatedConfidence confidence0
        volumeConfirmation.ratioVal indicators.adx.value
        anchorTrendValidationResult.aligned rsiNeutralCheck.isNeutral
        volumeDivergence.hasDivergence
      let rejected := validationResult.shouldProceed = false
      let direction1 : Direction := if rejected then Direction.NEUTRAL else direction0
      let confidence1 : ℚ := validationResult.confidence
      let keyFactors : List String :=
        if rejected then
          [ anchorTrendValidationResult.reason
            , volumeConfirmation.reason
            , rsiNeutralCheck.reason
            , "ADX: " ++ toFixed 1 indicators.adx.value ++ " - " ++
              (if indicators.adx.value < 15 then "Tight Range" else "Directional Momentum") ]
        else
          match geminiResult with
          | some g =>
            match g.keyFactors with
            | some kf => kf
            | none =>
              [ toString upSignals.length ++ "/" ++ toString totalSignals ++
                  " indicators bullish (" ++ toFixed 1 signalAlignment ++ "% alignment)"
                , "Trend Aligned: Entry (" ++ indicators.trendBias.toLabel ++
                  ") matches Anchor (" ++
                  (match anchorIndicators with
                   | some anchorInd => anchorInd.trendBias.toLabel
                   | none => "N/A") ++ ")"
                , indicators.marketRegime.toLabel ++ " market (ADX: " ++
                  toFixed 1 indicators.adx.value ++ ")"
                , volumeConfirmation.reason ]
          | none =>
            [ toString upSignals.length ++ "/" ++ toString totalSignals ++
                " indicators bullish (" ++ toFixed 1 signalAlignment ++ "% alignment)"
              , "Trend Aligned: Entry (" ++ indicators.trendBias.toLabel ++
                ") matches Anchor (" ++
                (match anchorIndicators with
                 | some anchorInd => anchorInd.trendBias.toLabel
                 | none => "N/A") ++ ")"
              , indicators.marketRegime.toLabel ++ " market (ADX: " ++
                toFixed 1 indicators.adx.value ++ ")"
              , volumeConfirmation.reason ]
      let riskFactors : List String :=
        if rejected then
          [validationResult.rejectionReason.getD "Multiple validation checks failed"]
        else
          match geminiResult with
          | some g => g.riskFactors
          | none =>
            [ (if volumeDivergence.hasDivergence then volumeDivergence.reason
               else "Monitor for volume decrease")
              , (if indicators.atr > 3 then "High volatility - wider stops recommended"
                 else "Normal volatility range") ]
      let tradeTargets : Option TradeTargets :=
        if rejected then none
        else
          match direction0 with
          | Direction.NEUTRAL => none
          | Direction.UP =>
            some ((normalizeTradeTargets (geminiResult.bind (fun g => g.tradeTargets))
                TradeDir.UP marketData.currentPrice indicators.atr).getD
              (computeFallbackTradeTargets TradeDir.UP marketData.currentPrice indicators.atr))
          | Direction.DOWN =>
            some ((normalizeTradeTargets (geminiResult.bind (fun g => g.tradeTargets))
                TradeDir.DOWN marketData.currentPrice indicators.atr).getD
              (computeFallbackTradeTargets TradeDir.DOWN marketData.currentPrice indicators.atr))
      let explanation : String :=
        if rejected then
          "Market Analysis: Neutral leaning. " ++
            validationResult.rejectionReason.getD "null" ++ ". Standing aside."
        else
          match geminiResult with
          | some g =>
            if g.rationale = "" then
              "Strong " ++ direction0.toLabel ++ " signal detected with " ++
                toString confidence1 ++ "% confidence"
            else g.rationale
          | none =>
            "Strong " ++ direction0.toLabel ++ " signal detected with " ++
              toString confidence1 ++ "% confidence"
      Except.ok
        { pair := pair
          direction := direction1
          confidence := confidence1
          duration := some duration
          analysis := some explanation
          rationale := some explanation
          riskFactors := some riskFactors
          tradeTargets := tradeTargets
          detailedAnalysis := some
            { upScore := some upScore
              downScore := some downScore
              signalAlignment := some signalAlignment
              qualityScore := qualityScore
              marketRegime := some indicators.marketRegime
              confidenceBreakdown := some
                { baseScore := ((jsRound (signalAlignment * 0.6) : ℤ) : ℚ)
                  volumeBonus :=
                    ((jsRound (if volumeConfirmation.ratioVal ≥ 1.1 then 25 else 0) : ℤ) : ℚ)
                  regimeBonus :=
                    match indicators.marketRegime with
                    | MarketRegime.STRONG_TRENDING => 18
                    | MarketRegime.TRENDING => 10
                    | MarketRegime.RANGING => 0
                  alignmentPenalty :=
                    if anchorTrendValidationResult.aligned = false then -20
                    else if signalAlignment < 70 then -12 else 0
                  qualityBoost :=
                    if qualityScore > 80 then 15 else if qualityScore > 60 then 10 else 0
                  rawScore := ((jsRound ((upScore + downScore) / 2) : ℤ) : ℚ)
                  finalConfidence := confidence1 }
              thinkingProcess := geminiResult.bind (fun g => g.thinkingProcess)
              keyFactors := some keyFactors } }

/-- A concrete indicator snapshot for exercising the progressive signal
mapper: RSI oversold, stochastic oversold and momentum+ROC bullish give three
UP signals with total weighted score 312, while a weak MACD, price below
SMA50, price at the upper Bollinger band and price near resistance give four
DOWN signals with total weighted score 308.5. -/
def indProgSample : TechnicalIndicators :=
  { rsi := 25
    stochastic := { k := 10, d := 10 }
    macd := { histogram := -1/2000 }
    adx := { value := 40, plusDI := 20, minusDI := 30 }
    movingAverages := { sma20 := 100, sma50 := 110, sma200 := 100 }
    bollingerBands := { upper := 101, middle := 50, lower := 0, bandwidth := 1 }
    supportResistance :=
      { nearestSupport := 95, nearestResistance := 101
        distanceToSupport := 5, distanceToResistance := 1 }
    atr := 1
    momentum := 4
    roc := 4
    volumeIndicator := 0
    volumeMA := 100
    trendStrength := 50
    marketRegime := MarketRegime.RANGING
    trendBias := TrendBias.NEUTRAL }

/-- Concrete market data for exercising the transparent indicator list. -/
def mdTransSample : MarketData :=
  { currentPrice := 100, priceChange24h := 0, volumeChange24h := 5, candles := [] }

/-- A concrete indicator snapshot for the transparent indicator list: five UP
entries (RSI, MACD, ADX, SMA, Momentum), one DOWN entry (ROC) and three
NEUTRAL entries (Stochastic, Bollinger, Volume Trend). -/
def indTransSample : TechnicalIndicators :=
  { rsi := 25
    stochastic := { k := 50, d := 50 }
    macd := { histogram := 1 }
    adx := { value := 40, plusDI := 30, minusDI := 20 }
    movingAverages := { sma20 := 90, sma50 := 90, sma200 := 90 }
    bollingerBands := { upper := 105, middle := 100, lower := 95, bandwidth := 2 }
    supportResistance :=
      { nearestSupport := 95, nearestResistance := 105
        distanceToSupport := 5, distanceToResistance := 5 }
    atr := 1
    momentum := 1
    roc := -1
    volumeIndicator := 0
    volumeMA := 100
    trendStrength := 50
    marketRegime := MarketRegime.TRENDING
    trendBias := TrendBias.BULLISH }

/-- Scenario C of the specification: five candles with closes 10..14 and
volumes 100,100,100,100,80. -/
def scenarioC : List Candle :=
  [ { close := 10, volume := 100 }
    , { close := 11, volume := 100 }
    , { close := 12, volume := 100 }
    , { close := 13, volume := 100 }
    , { close := 14, volume := 80 } ]

/-- The UP (long) trade-target invariant as the specification words it:
stop below the entry band and target above it. -/
def tradeTargetsUpInvariant (t : TradeTargets) : Prop :=
  t.stop < t.entry.low ∧ t.entry.high < t.target.high

/-- The DOWN (short) trade-target invariant as the specification words it:
stop above the entry band and target below it. -/
def tradeTargetsDownInvariant (t : TradeTargets) : Prop :=
  t.entry.high < t.stop ∧ t.target.low < t.entry.low

/-- Both bound pairs of a TradeTargets are ordered low ≤ high. -/
def tradeTargetsNormalized (t : TradeTargets) : Prop :=
  t.entry.low ≤ t.entry.high ∧ t.target.low ≤ t.target.high

instance (t : TradeTargets) : Decidable (tradeTargetsUpInvariant t) := by
  unfold tradeTargetsUpInvariant; infer_instance

instance (t : TradeTargets) : Decidable (tradeTargetsDownInvariant t) := by
  unfold tradeTargetsDownInvariant; infer_instance

instance (t : TradeTargets) : Decidable (tradeTargetsNormalized t) := by
  unfold tradeTargetsNormalized; infer_instance

theorem computeFallback_up_props (cp atr : ℚ) (hp : 0 < cp) :
    tradeTargetsNormalized (computeFallbackTradeTargets TradeDir.UP cp atr) ∧
      tradeTargetsUpInvariant (computeFallbackTradeTargets TradeDir.UP cp atr) := by
  have hs : 0 < max |atr| (|cp| * 0.002) := by
    have h1 : 0 < |cp| := abs_pos.mpr (ne_of_gt hp)
    have h2 : 0 < |cp| * 0.002 := by positivity
    exact lt_of_lt_of_le h2 (le_max_right _ _)
  simp only [computeFallbackTradeTargets, tradeTargetsNormalized, tradeTargetsUpInvariant]
  refine ⟨⟨le_trans (min_le_left _ _) (le_max_left _ _), by linarith⟩,
    lt_min (by linarith) (by linarith), max_lt (by linarith) (by linarith)⟩

theorem computeFallback_down_props (cp atr : ℚ) (hp : 0 < cp) :
    tradeTargetsNormalized (computeFallbackTradeTargets TradeDir.DOWN cp atr) ∧
      tradeTargetsDownInvariant (computeFallbackTradeTargets TradeDir.DOWN cp atr) := by
  have hs : 0 < max |atr| (|cp| * 0.002) := by
    have h1 : 0 < |cp| := abs_pos.mpr (ne_of_gt hp)
    have h2 : 0 < |cp| * 0.002 := by positivity
    exact lt_of_lt_of_le h2 (le_max_right _ _)
  simp only [computeFallbackTradeTargets, tradeTargetsNormalized, tradeTargetsDownInvariant]
  refine ⟨⟨le_trans (min_le_left _ _) (le_max_left _ _), by linarith⟩,
    max_lt (by linarith) (by linarith), lt_min (by linarith) (by linarith)⟩

/-- Claim C2: for both directions, every strictly positive current price and
every volatility value (including zero), the fallback trade targets have
normalized entry/target bounds and satisfy the directional invariants,
because safeAtr = max(|volatility|, |currentPrice| * 0.002) is positive. -/
theorem computeFallbackTradeTargets_invariants (direction : TradeDir)
    (currentPrice atr : ℚ) (hp : 0 < currentPrice) :
    tradeTargetsNormalized (computeFallbackTradeTargets direction currentPrice atr) ∧
      (match direction with
       | TradeDir.UP =>
         tradeTargetsUpInvariant (computeFallbackTradeTargets direction currentPrice atr)
       | TradeDir.DOWN =>
         tradeTargetsDownInvariant (computeFallbackTradeTargets direction currentPrice atr)) := by
  cases direction
  · exact computeFallback_up_props currentPrice atr hp
  · exact computeFallback_down_props currentPrice atr hp

/-- Witness for C2 at direction UP, currentPrice 100 and zero volatility. -/
theorem computeFallbackTradeTargets_invariants_witness :
    0 < (100 : ℚ) ∧
      tradeTargetsNormalized (computeFallbackTradeTargets TradeDir.UP 100 0) ∧
      tradeTargetsUpInvariant (computeFallbackTradeTargets TradeDir.UP 100 0) :=
  ⟨by norm_num, computeFallbackTradeTargets_invariants TradeDir.UP 100 0 (by norm_num)⟩

/-- Counterexample to claim C1.  First input: a candidate whose entry band
(0..1) lies far below the current price 100, whose target side is valid and
whose stop (1/2) is invalid; the stop-repair path substitutes the fallback
stop 98.7, which is far ABOVE the candidate entry band, so the returned
record violates the UP stop invariant.  Second input: with current price 0
and volatility 0 the substituted full fallback is a degenerate all-zero
record violating both UP invariants. -/
theorem normalizeTradeTargets_violates_stop_invariant :
    normalizeTradeTargets
        (some { entry := { low := 0, high := 1 }, target := { low := 2, high := 3 }
                stop := 1/2 }) TradeDir.UP 100 1 =
      some { entry := { low := 0, high := 1 }, target := { low := 2, high := 3 }
             stop := 987/10 } ∧
    ¬ tradeTargetsUpInvariant
        { entry := { low := 0, high := 1 }, target := { low := 2, high := 3 }
          stop := 987/10 } ∧
    normalizeTradeTargets
        (some { entry := { low := 0, high := 0 }, target := { low := 0, high := 0 }
                stop := 0 }) TradeDir.UP 0 0 =
      some { entry := { low := 0, high := 0 }, target := { low := 0, high := 0 }
             stop := 0 } ∧
    ¬ tradeTargetsUpInvariant
        { entry := { low := 0, high := 0 }, target := { low := 0, high := 0 }
          stop := 0 } := by
  refine ⟨?_, ?_, ?_, ?_⟩
  · simp only [normalizeTradeTargets, computeFallbackTradeTargets]
    norm_num [min_def, max_def]
  · norm_num [tradeTargetsUpInvariant]
  · simp only [normalizeTradeTargets, computeFallbackTradeTargets]
    norm_num [min_def, max_def]
  · norm_num [tradeTargetsUpInvariant]

/-- Claim C1 as amended: for a positive current price, any TradeTargets
returned by normalizeTradeTargets has normalized entry/target bounds and
satisfies the target-side directional invariant; the stop-side invariant is
guaranteed whenever the candidate stop was already valid for the candidate
entry band (and also on the full-replacement path), but on the stop-repair
path the substituted fallback stop need not respect the candidate entry
band. -/
theorem normalizeTradeTargets_partial_invariants (t : TradeTargets)
    (direction : TradeDir) (currentPrice atr : ℚ) (hp : 0 < currentPrice)
    (r : TradeTargets)
    (hr : normalizeTradeTargets (some t) direction currentPrice atr = some r) :
    tradeTargetsNormalized r ∧
      (match direction with
       | TradeDir.UP =>
         r.entry.high < r.target.high ∧
           (t.stop < min t.entry.low t.entry.high → r.stop < r.entry.low)
       | TradeDir.DOWN =>
         r.target.low < r.entry.low ∧
           (max t.entry.low t.entry.high < t.stop → r.entry.high < r.stop)) := by
  cases direction
  case UP =>
    simp only [normalizeTradeTargets] at hr
    by_cases htarget : max t.target.low t.target.high > max t.entry.low t.entry.high
    · rw [if_neg (not_not_intro htarget)] at hr
      injection hr with h
      subst h
      refine ⟨⟨le_trans (min_le_left _ _) (le_max_left _ _),
        le_trans (min_le_left _ _) (le_max_left _ _)⟩, htarget, ?_⟩
      intro hv
      simp only
      rw [if_pos hv]
      exact hv
    · rw [if_pos htarget] at hr
      injection hr with h
      subst h
      obtain ⟨hn, hup⟩ := computeFallback_up_props currentPrice atr hp
      exact ⟨hn, hup.2, fun _ => hup.1⟩
  case DOWN =>
    simp only [normalizeTradeTargets] at hr
    by_cases htarget : min t.target.low t.target.high < min t.entry.low t.entry.high
    · rw [if_neg (not_not_intro htarget)] at hr
      injection hr with h
      subst h
      refine ⟨⟨le_trans (min_le_left _ _) (le_max_left _ _),
        le_trans (min_le_left _ _) (le_max_left _ _)⟩, htarget, ?_⟩
      intro hv
      simp only
      rw [if_pos hv]
      exact hv
    · rw [if_pos htarget] at hr
      injection hr with h
      subst h
      obtain ⟨hn, hdown⟩ := computeFallback_down_props currentPrice atr hp
      exact ⟨hn, hdown.2, fun _ => hdown.1⟩

/-- Witness for the amended C1 at a well-formed candidate: entry 99..100,
target 105..110, stop 98, direction UP, price 100, volatility 1; the
candidate passes both guards and is returned with its bounds normalized. -/
theorem normalizeTradeTargets_partial_invariants_witness :
    0 < (100 : ℚ) ∧
      tradeTargetsNormalized
        { entry := { low := 99, high := 100 }, target := { low := 105, high := 110 }
          stop := 98 } ∧
      ({ entry := { low := 99, high := 100 }, target := { low := 105, high := 110 }
         stop := 98 } : TradeTargets).entry.high <
        ({ entry := { low := 99, high := 100 }, target := { low := 105, high := 110 }
           stop := 98 } : TradeTargets).target.high ∧
      ((98 : ℚ) < min 99 100 →
        ({ entry := { low := 99, high := 100 }, target := { low := 105, high := 110 }
           stop := 98 } : TradeTargets).stop <
          ({ entry := { low := 99, high := 100 }, target := { low := 105, high := 110 }
             stop := 98 } : TradeTargets).entry.low) :=
  ⟨by norm_num,
   normalizeTradeTargets_partial_invariants
     { entry := { low := 99, high := 100 }, target := { low := 105, high := 110 }
       stop := 98 }
     TradeDir.UP 100 1 (by norm_num)
     { entry := { low := 99, high := 100 }, target := { low := 105, high := 110 }
       stop := 98 }
     (by simp only [normalizeTradeTargets, computeFallbackTradeTargets]
         norm_num [min_def, max_def])⟩

/-- Claim C3: whenever ADX < 15 and none of rules 1-5 fires, the validation
chain rejects with the ranging-market reason and returns baseConfidence
unchanged; no baseConfidence value can override rule 6. -/
theorem adx_rule_rejects_unconditionally (bc vr adx : ℚ) (ta rn hd : Bool)
    (h1 : ¬ bc < 80) (h2 : ¬ (ta = false ∧ bc < 82)) (h3 : ¬ (vr < 1.1 ∧ bc < 85))
    (h4 : ¬ (hd = true ∧ bc < 85)) (h5 : ¬ (rn = true ∧ bc < 80)) (h6 : adx < 15) :
    calculateValidatedConfidence bc vr adx ta rn hd =
      { confidence := bc, shouldProceed := false
        rejectionReason := some "ADX < 15 - Extremely ranging market, no edge detected" } := by
  simp only [calculateValidatedConfidence]
  rw [if_neg h1, if_neg h2, if_neg h3, if_neg h4, if_neg h5, if_pos h6]

/-- Witness for C3 at baseConfidence 98 and ADX 10, with all other rules
passing. -/
theorem adx_rule_rejects_unconditionally_witness :
    (¬ (98 : ℚ) < 80) ∧ (¬ (true = false ∧ (98 : ℚ) < 82)) ∧
      (¬ ((6 : ℚ)/5 < 1.1 ∧ (98 : ℚ) < 85)) ∧ (¬ (false = true ∧ (98 : ℚ) < 85)) ∧
      (¬ (false = true ∧ (98 : ℚ) < 80)) ∧ ((10 : ℚ) < 15) ∧
      calculateValidatedConfidence 98 (6/5) 10 true false false =
        { confidence := 98, shouldProceed := false
          rejectionReason := some "ADX < 15 - Extremely ranging market, no edge detected" } :=
  ⟨by norm_num, by simp, by norm_num, by simp, by simp, by norm_num,
   adx_rule_rejects_unconditionally 98 (6/5) 10 true false false (by norm_num) (by simp)
     (by norm_num) (by simp) (by simp) (by norm_num)⟩

/-- Claim C4: with baseConfidence 81, trend not aligned and every other rule
passing, the chain rejects on rule 2 with the counter-trend reason; rule 1
does not fire (81 is not below 80) and no later rule is reached. -/
theorem counter_trend_rule_order (vr adx : ℚ) (rn hd : Bool)
    (hvr : ¬ vr < 1.1) (hadx : ¬ adx < 15) (hrn : rn = false) (hhd : hd = false) :
    calculateValidatedConfidence 81 vr adx false rn hd =
      { confidence := 81, shouldProceed := false
        rejectionReason :=
          some "Trend Conflict: Counter-trend setups require higher confidence (>82%)" } := by
  simp only [calculateValidatedConfidence]
  rw [if_neg (by norm_num : ¬ (81 : ℚ) < 80),
    if_pos (show True ∧ (81 : ℚ) < 82 from ⟨trivial, by norm_num⟩)]

/-- Witness for C4 with volumeRatio 1.2, ADX 20, RSI directional and no
divergence. -/
theorem counter_trend_rule_order_witness :
    (¬ (6 : ℚ)/5 < 1.1) ∧ (¬ (20 : ℚ) < 15) ∧
      calculateValidatedConfidence 81 (6/5) 20 false false false =
        { confidence := 81, shouldProceed := false
          rejectionReason :=
            some "Trend Conflict: Counter-trend setups require higher confidence (>82%)" } :=
  ⟨by norm_num, by norm_num,
   counter_trend_rule_order (6/5) 20 false false (by norm_num) (by norm_num) rfl rfl⟩

/-- Claim C5: the confidence field of the validation outcome is
min(98, baseConfidence) exactly when shouldProceed is true, and the
unmodified baseConfidence on every rejection branch. -/
theorem validation_confidence_passthrough (bc vr adx : ℚ) (ta rn hd : Bool) :
    (calculateValidatedConfidence bc vr adx ta rn hd).confidence =
      (if (calculateValidatedConfidence bc vr adx ta rn hd).shouldProceed then min 98 bc
       else bc) := by
  simp only [calculateValidatedConfidence]
  split_ifs <;> simp_all

/-- Claim C10: after the oracle clamp round(max(90, min(98, c))) the
confidence is an integer in [90, 98]; consequently, fed to the validation
chain as baseConfidence, rules 1-5 can never fire and the outcome is either
the rule-6 ranging rejection or success. -/
theorem gemini_confidence_clamped_validation (d : GeminiDecision) (vr adx : ℚ)
    (ta rn hd : Bool) :
    90 ≤ (applyConfidenceClamp d).confidence ∧
    (applyConfidenceClamp d).confidence ≤ 98 ∧
    (∃ n : ℤ, (applyConfidenceClamp d).confidence = (n : ℚ)) ∧
    calculateValidatedConfidence (applyConfidenceClamp d).confidence vr adx ta rn hd =
      (if adx < 15 then
        { confidence := (applyConfidenceClamp d).confidence, shouldProceed := false
          rejectionReason := some "ADX < 15 - Extremely ranging market, no edge detected" }
       else
        { confidence := min 98 (applyConfidenceClamp d).confidence, shouldProceed := true
          rejectionReason := none }) := by
  have hx1 : (90 : ℚ) ≤ max 90 (min 98 d.confidence) := le_max_left _ _
  have hx2 : max 90 (min 98 d.confidence) ≤ 98 := max_le (by norm_num) (min_le_left _ _)
  have h90 : (90 : ℤ) ≤ jsRound (max 90 (min 98 d.confidence)) := by
    rw [jsRound]
    exact Int.le_floor.mpr (by push_cast; linarith)
  have h98 : jsRound (max 90 (min 98 d.confidence)) ≤ 98 := by
    rw [jsRound]
    have hmono : ⌊max 90 (min 98 d.confidence) + 1/2⌋ ≤ ⌊(98 : ℚ) + 1/2⌋ :=
      Int.floor_le_floor (by linarith)
    have hval : (⌊(98 : ℚ) + 1/2⌋ : ℤ) = 98 := by
      rw [Int.floor_eq_iff]
      norm_num
    omega
  have hc : (applyConfidenceClamp d).confidence =
      ((jsRound (max 90 (min 98 d.confidence)) : ℤ) : ℚ) := rfl
  have hcge : (90 : ℚ) ≤ (applyConfidenceClamp d).confidence := by
    rw [hc]; exact_mod_cast h90
  have hcle : (applyConfidenceClamp d).confidence ≤ 98 := by
    rw [hc]; exact_mod_cast h98
  refine ⟨hcge, hcle, ⟨jsRound (max 90 (min 98 d.confidence)), hc⟩, ?_⟩
  simp only [calculateValidatedConfidence]
  rw [if_neg (by intro h; linarith), if_neg (fun h => absurd h.2 (by linarith)),
    if_neg (fun h => absurd h.2 (by linarith)), if_neg (fun h => absurd h.2 (by linarith)),
    if_neg (fun h => absurd h.2 (by linarith))]

theorem decide_dir_uu : decide (Direction.UP = Direction.UP) = true := rfl

theorem decide_dir_du : decide (Direction.DOWN = Direction.UP) = false := rfl

theorem decide_dir_nu : decide (Direction.NEUTRAL = Direction.UP) = false := rfl

theorem decide_dir_ud : decide (Direction.UP = Direction.DOWN) = false := rfl

theorem decide_dir_dd : decide (Direction.DOWN = Direction.DOWN) = true := rfl

theorem decide_dir_nd : decide (Direction.NEUTRAL = Direction.DOWN) = false := rfl

theorem foldl_weighted_nonneg (l : List WeightedSignal) (a : ℚ) (ha : 0 ≤ a)
    (h : ∀ s ∈ l, 0 ≤ s.strength * s.weight) :
    0 ≤ l.foldl (fun sum s => sum + s.strength * s.weight) a := by
  induction l generalizing a with
  | nil => simpa using ha
  | cons x xs ih =>
    simp only [List.foldl_cons]
    refine ih _ ?_ (fun s hs => h s (List.mem_cons_of_mem _ hs))
    have hx := h x (List.mem_cons_self x xs)
    linarith

theorem ratio_scaled_bounds (c t : ℕ) (hct : c ≤ t) (ht : 0 < t) :
    0 ≤ ((c : ℚ) / (t : ℚ)) * 100 ∧ ((c : ℚ) / (t : ℚ)) * 100 ≤ 100 := by
  have htq : (0 : ℚ) < (t : ℚ) := by exact_mod_cast ht
  have hcq : (c : ℚ) ≤ (t : ℚ) := by exact_mod_cast hct
  constructor
  · positivity
  · have hdiv : (c : ℚ) / (t : ℚ) ≤ 1 := (div_le_one htq).mpr hcq
    nlinarith

theorem signalAlignmentProg_bounds (signals : List WeightedSignal) :
    0 ≤ signalAlignmentProg signals ∧ signalAlignmentProg signals ≤ 100 := by
  unfold signalAlignmentProg
  by_cases hpos :
      (signals.filter (fun s => decide (s.direction = Direction.UP))).length +
        (signals.filter (fun s => decide (s.direction = Direction.DOWN))).length > 0
  · rw [if_pos hpos]
    by_cases hscore : upScoreProg signals > downScoreProg signals
    · rw [if_pos hscore]
      exact ratio_scaled_bounds _ _ (by omega) hpos
    · rw [if_neg hscore]
      exact ratio_scaled_bounds _ _ (by omega) hpos
  · rw [if_neg hpos]
    norm_num

theorem signalAlignmentTrans_bounds (lst : List TechSignal) (hne : lst ≠ []) :
    0 ≤ signalAlignmentTrans lst ∧ signalAlignmentTrans lst ≤ 100 := by
  unfold signalAlignmentTrans
  refine ratio_scaled_bounds _ _ ?_ (List.length_pos.mpr hne)
  exact max_le (List.length_filter_le _ _) (List.length_filter_le _ _)

/-- Counterexample to claim C6.  In generateProgressivePrediction the
numerator of the alignment is the count of the higher-SCORING side, not the
larger count: on a concrete snapshot with 3 UP signals scoring 312 and 4 DOWN
signals scoring 308.5 the code yields 300/7 where the claimed formula yields
400/7.  In generateTransparentPrediction the denominator is the length of the
whole nine-entry list including NEUTRAL entries: on a snapshot with 5 UP, 1
DOWN and 3 NEUTRAL entries the code yields 500/9 where the claimed formula
(max over directional count) yields 250/3. -/
theorem signalAlignment_formula_counterexample :
    signalAlignmentProg (progressiveSignals 100 indProgSample) = 300/7 ∧
    signalAlignmentClaimed
        ((progressiveSignals 100 indProgSample).filter
          (fun s => decide (s.direction = Direction.UP))).length
        ((progressiveSignals 100 indProgSample).filter
          (fun s => decide (s.direction = Direction.DOWN))).length = 400/7 ∧
    (300 : ℚ)/7 ≠ 400/7 ∧
    signalAlignmentTrans (technicalIndicatorsList mdTransSample indTransSample) = 500/9 ∧
    signalAlignmentClaimed
        ((technicalIndicatorsList mdTransSample indTransSample).filter
          (fun s => decide (s.signal = Direction.UP))).length
        ((technicalIndicatorsList mdTransSample indTransSample).filter
          (fun s => decide (s.signal = Direction.DOWN))).length = 250/3 ∧
    (500 : ℚ)/9 ≠ 250/3 := by
  refine ⟨?_, ?_, by norm_num, ?_, ?_, by norm_num⟩
  · norm_num [signalAlignmentProg, progressiveSignals, indProgSample, upScoreProg, downScoreProg,
      bbDirection, bbStrength, bbReason, bbPositionJS, jsDiv, jsLtQ, jsGtQ,
      List.filter, List.foldl, decide_eq_true_eq,
      decide_dir_uu, decide_dir_du, decide_dir_nu, decide_dir_ud, decide_dir_dd, decide_dir_nd,
      abs_of_nonneg, abs_of_nonpos]
  · norm_num [signalAlignmentClaimed, progressiveSignals, indProgSample,
      bbDirection, bbStrength, bbReason, bbPositionJS, jsDiv, jsLtQ, jsGtQ,
      List.filter, decide_eq_true_eq,
      decide_dir_uu, decide_dir_du, decide_dir_nu, decide_dir_ud, decide_dir_dd, decide_dir_nd,
      abs_of_nonneg, abs_of_nonpos]
  · norm_num [signalAlignmentTrans, technicalIndicatorsList, mdTransSample, indTransSample,
      List.filter, decide_eq_true_eq,
      decide_dir_uu, decide_dir_du, decide_dir_nu, decide_dir_ud, decide_dir_dd, decide_dir_nd,
      abs_of_nonneg, abs_of_nonpos]
  · norm_num [signalAlignmentClaimed, technicalIndicatorsList, mdTransSample, indTransSample,
      List.filter, decide_eq_true_eq,
      decide_dir_uu, decide_dir_du, decide_dir_nu, decide_dir_ud, decide_dir_dd, decide_dir_nd,
      abs_of_nonneg, abs_of_nonpos]

/-- Claim C6 as amended: the weighted UP/DOWN scores are non-negative for
signals with non-negative strengths and weights; the alignment of the
progressive aggregator lies in [0,100] and is 0 when there are no directional
signals (its numerator being the count of the higher-scoring side over the
directional count); the alignment of the transparent aggregator
(max count over the FULL list length) lies in [0,100] for any non-empty
list. -/
theorem signalAlignment_bounds :
    (∀ signals : List WeightedSignal,
        (∀ s ∈ signals, 0 ≤ s.strength ∧ 0 ≤ s.weight) →
        0 ≤ upScoreProg signals ∧ 0 ≤ downScoreProg signals ∧
          0 ≤ signalAlignmentProg signals ∧ signalAlignmentProg signals ≤ 100) ∧
    (∀ signals : List WeightedSignal,
        (signals.filter (fun s => decide (s.direction = Direction.UP))).length +
            (signals.filter (fun s => decide (s.direction = Direction.DOWN))).length = 0 →
        signalAlignmentProg signals = 0) ∧
    (∀ lst : List TechSignal, lst ≠ [] →
        0 ≤ signalAlignmentTrans lst ∧ signalAlignmentTrans lst ≤ 100) := by
  refine ⟨fun signals h => ?_, fun signals h => ?_,
    fun lst h => signalAlignmentTrans_bounds lst h⟩
  · refine ⟨foldl_weighted_nonneg _ 0 le_rfl ?_, foldl_weighted_nonneg _ 0 le_rfl ?_,
      (signalAlignmentProg_bounds signals).1, (signalAlignmentProg_bounds signals).2⟩
    · intro s hs
      obtain ⟨h1, h2⟩ := h s (List.mem_of_mem_filter hs)
      exact mul_nonneg h1 h2
    · intro s hs
      obtain ⟨h1, h2⟩ := h s (List.mem_of_mem_filter hs)
      exact mul_nonneg h1 h2
  · unfold signalAlignmentProg
    rw [if_neg (by omega)]

/-- Witness for the amended C6 at the concrete signal lists built from the
sample snapshots (and the empty list for the zero case). -/
theorem signalAlignment_bounds_witness :
    (0 ≤ upScoreProg (progressiveSignals 100 indProgSample) ∧
      0 ≤ downScoreProg (progressiveSignals 100 indProgSample) ∧
      0 ≤ signalAlignmentProg (progressiveSignals 100 indProgSample) ∧
      signalAlignmentProg (progressiveSignals 100 indProgSample) ≤ 100) ∧
    signalAlignmentProg [] = 0 ∧
    (0 ≤ signalAlignmentTrans (technicalIndicatorsList mdTransSample indTransSample) ∧
      signalAlignmentTrans (technicalIndicatorsList mdTransSample indTransSample) ≤ 100) :=
  ⟨signalAlignment_bounds.1 _ (by
      norm_num [progressiveSignals, indProgSample, bbDirection, bbStrength, bbReason,
        bbPositionJS, jsDiv, jsLtQ, jsGtQ, List.forall_mem_cons, abs_of_nonneg,
        abs_of_nonpos, decide_eq_true_eq]),
   signalAlignment_bounds.2.1 [] (by simp),
   signalAlignment_bounds.2.2 _ (by simp [technicalIndicatorsList])⟩

/-- Counterexample to claim C7: generateTransparentPrediction has no
surrounding try/catch, so a market-data fetch failure escapes to the caller
as an exception instead of producing a NEUTRAL placeholder Prediction. -/
theorem transparent_prediction_exception_escapes :
    generateTransparentPrediction "BTCUSDT" "M1" (Except.error "network error")
        (fun _ => Except.error "no indicators") (Except.error "anchor error") none =
      Except.error "network error" := rfl

/-- Claim C7 as amended: generateProgressivePrediction always returns a
Prediction, and on a market-data failure returns the NEUTRAL placeholder
carrying the explanatory message; generateTransparentPrediction returns a
Prediction whenever the primary fetch and the indicator computation succeed
(an anchor-fetch failure is tolerated), but a primary failure escapes it. -/
theorem prediction_total_on_success :
    (∀ (pair : String) (fetchResult : Except String MarketData)
        (analyzeResult : MarketData → Except String TechnicalIndicators)
        (geminiResult : Option GeminiDecision),
        ∃ p, generateProgressivePrediction pair fetchResult analyzeResult geminiResult =
          Except.ok p) ∧
    (∀ (pair e : String) (analyzeResult : MarketData → Except String TechnicalIndicators)
        (geminiResult : Option GeminiDecision),
        generateProgressivePrediction pair (Except.error e) analyzeResult geminiResult =
            Except.ok (progressiveErrorPrediction pair) ∧
          (progressiveErrorPrediction pair).direction = Direction.NEUTRAL ∧
          (progressiveErrorPrediction pair).analysis =
            some ("Market data service temporarily unavailable. Cannot perform technical analysis for "
              ++ pair ++ ". Please try again in a moment when live market data is restored.")) ∧
    (∀ (pair timeframe : String) (fetchResult : Except String MarketData)
        (analyzeResult : MarketData → Except String TechnicalIndicators)
        (anchorFetchResult : Except String MarketData)
        (geminiResult : Option GeminiDecision)
        (marketData : MarketData) (indicators : TechnicalIndicators),
        fetchResult = Except.ok marketData →
        analyzeResult marketData = Except.ok indicators →
        ∃ p, generateTransparentPrediction pair timeframe fetchResult analyzeResult
            anchorFetchResult geminiResult = Except.ok p) := by
  refine ⟨fun pair fetchResult analyzeResult geminiResult => ⟨_, rfl⟩,
    fun pair e analyzeResult geminiResult => ⟨rfl, rfl, rfl⟩,
    fun pair timeframe fetchResult analyzeResult anchorFetchResult geminiResult
      marketData indicators hfetch hind => ?_⟩
  subst hfetch
  simp only [generateTransparentPrediction]
  rw [hind]
  exact ⟨_, rfl⟩

/-- Witness for the amended C7: the progressive pipeline on a failed fetch,
and the transparent pipeline on a successful fetch with a failed anchor. -/
theorem prediction_total_on_success_witness :
    (∃ p, generateProgressivePrediction "BTCUSDT" (Except.error "boom")
        (fun _ => Except.error "x") none = Except.ok p) ∧
    (∃ p, generateTransparentPrediction "BTCUSDT" "M1" (Except.ok mdTransSample)
        (fun _ => Except.ok indTransSample) (Except.error "anchor down") none =
          Except.ok p) :=
  ⟨prediction_total_on_success.1 "BTCUSDT" (Except.error "boom")
     (fun _ => Except.error "x") none,
   prediction_total_on_success.2.2 "BTCUSDT" "M1" (Except.ok mdTransSample)
     (fun _ => Except.ok indTransSample) (Except.error "anchor down") none
     mdTransSample indTransSample rfl rfl⟩

/-- Counterexample to claim C8: there is no guard on upper = lower.  With
price 150 and both band bounds at 100 the computed Bollinger position is the
raw IEEE division result +Infinity — not a finite (guarded) value. -/
theorem bbPosition_unguarded :
    JSVal.isFinite (bbPositionJS 150 100 100) = false ∧
    bbPositionJS 150 100 100 = JSVal.posInf ∧
    bbDirection 150 100 100 = Direction.DOWN ∧
    bbStrength 150 100 100 = 75 := by
  have hd : bbPositionJS 150 100 100 = JSVal.posInf := by
    unfold bbPositionJS jsDiv
    norm_num
  refine ⟨by rw [hd]; rfl, hd, ?_, ?_⟩
  · unfold bbDirection
    rw [hd]
    simp [jsLtQ, jsGtQ]
  · unfold bbStrength
    rw [hd]
    simp [jsLtQ, jsGtQ]

/-- Claim C8 as amended: the Bollinger position is computed by an unguarded
IEEE division, which on coinciding band bounds yields +Infinity, -Infinity or
NaN; the subsequent comparisons still select a direction in
{UP, DOWN, NEUTRAL} (UP below the band value, DOWN above it, NEUTRAL at it)
with strength 75 or 50, so the downstream signal stays well-formed even
though the position itself is not a finite number. -/
theorem bbSignal_degenerate_band (price lower : ℚ) :
    bbDirection price lower lower =
      (if price < lower then Direction.UP
       else if lower < price then Direction.DOWN else Direction.NEUTRAL) ∧
    bbStrength price lower lower = (if price = lower then 50 else 75) := by
  have hz : lower - lower = 0 := sub_self lower
  rcases lt_trichotomy price lower with h | h | h
  · have hd : bbPositionJS price lower lower = JSVal.negInf := by
      unfold bbPositionJS jsDiv
      rw [hz, if_pos rfl, if_neg (sub_ne_zero.mpr (ne_of_lt h)),
        if_neg (not_lt.mpr (sub_nonpos.mpr h.le))]
    constructor
    · simp [bbDirection, hd, jsLtQ, if_pos h]
    · simp [bbStrength, hd, jsLtQ, if_neg (ne_of_lt h)]
  · subst h
    have hd : bbPositionJS price price price = JSVal.nan := by
      unfold bbPositionJS jsDiv
      rw [sub_self, if_pos rfl, if_pos rfl]
    constructor
    · simp [bbDirection, hd, jsLtQ, jsGtQ]
    · simp [bbStrength, hd, jsLtQ, jsGtQ]
  · have hd : bbPositionJS price lower lower = JSVal.posInf := by
      unfold bbPositionJS jsDiv
      rw [hz, if_pos rfl, if_neg (sub_ne_zero.mpr (ne_of_gt h)), if_pos (sub_pos.mpr h)]
    constructor
    · simp [bbDirection, hd, jsLtQ, jsGtQ, if_neg (not_lt.mpr h.le), if_pos h]
    · simp [bbStrength, hd, jsLtQ, jsGtQ, if_neg (ne_of_gt h)]

theorem dropLastTwoChk (l : List Candle) (p c : Candle) (h : 3 ≤ l.length) :
    ((l ++ [p, c]).drop ((l ++ [p, c]).length - 5)).getD
        (((l ++ [p, c]).drop ((l ++ [p, c]).length - 5)).length - 1) ⟨0, 0⟩ = c ∧
    ((l ++ [p, c]).drop ((l ++ [p, c]).length - 5)).getD
        (((l ++ [p, c]).drop ((l ++ [p, c]).length - 5)).length - 2) ⟨0, 0⟩ = p := by
  have hlen : (l ++ [p, c]).length = l.length + 2 := by simp
  have hdrop : (l ++ [p, c]).drop ((l ++ [p, c]).length - 5) =
      l.drop (l.length - 3) ++ [p, c] := by
    rw [hlen]
    have h2 : l.length + 2 - 5 = l.length - 3 := by omega
    rw [h2, List.drop_append_of_le_length (by omega)]
  have hlen2 : (l.drop (l.length - 3)).length = 3 := by
    rw [List.length_drop]; omega
  rw [hdrop]
  have hlen3 : (l.drop (l.length - 3) ++ [p, c]).length = 5 := by simp [hlen2]
  rw [hlen3]
  constructor
  · rw [List.getD_eq_getElem?_getD, List.getElem?_append_right (by omega)]
    simp [hlen2]
  · rw [List.getD_eq_getElem?_getD, List.getElem?_append_right (by omega)]
    simp [hlen2]

/-- Claim C9: with fewer than 5 candles the divergence check reports no
divergence with the insufficient-data reason; with at least 5 candles it
compares the last two: for UP, divergence holds exactly when the last close
rose while the last volume fell (mirror for DOWN), and the UP divergence
reason is the Weak Breakout message; Scenario C (closes 10..14, volumes
100,100,100,100,80) detects the divergence. -/
theorem checkVolumeDivergence_spec :
    (∀ (candles : List Candle) (direction : Direction), candles.length < 5 →
        checkVolumeDivergence candles direction =
          { hasDivergence := false, reason := "Not enough data for divergence check" }) ∧
    (∀ (l : List Candle) (p c : Candle), 3 ≤ l.length →
        ((checkVolumeDivergence (l ++ [p, c]) Direction.UP).hasDivergence = true ↔
          (p.close < c.close ∧ c.volume < p.volume)) ∧
        ((checkVolumeDivergence (l ++ [p, c]) Direction.DOWN).hasDivergence = true ↔
          (c.close < p.close ∧ c.volume < p.volume)) ∧
        (p.close < c.close → c.volume < p.volume →
          (checkVolumeDivergence (l ++ [p, c]) Direction.UP).reason =
            "Weak Breakout: Price rising on declining volume")) ∧
    checkVolumeDivergence scenarioC Direction.UP =
      { hasDivergence := true
        reason := "Weak Breakout: Price rising on declining volume" } := by
  refine ⟨fun candles direction h => ?_, fun l p c h => ?_, ?_⟩
  · unfold checkVolumeDivergence
    rw [if_pos h]
  · have hnot : ¬ (l ++ [p, c]).length < 5 := by simp; omega
    obtain ⟨hcur, hprev⟩ := dropLastTwoChk l p c h
    refine ⟨?_, ?_, ?_⟩
    · simp only [checkVolumeDivergence, if_neg hnot, hcur, hprev]
      split_ifs with h1 h2 <;> simp_all
    · simp only [checkVolumeDivergence, if_neg hnot, hcur, hprev]
      split_ifs with h1 h2 <;> simp_all
    · intro hc hv
      simp only [checkVolumeDivergence, if_neg hnot, hcur, hprev]
      rw [if_pos ⟨trivial, hc, hv⟩]
  · norm_num [checkVolumeDivergence, scenarioC, List.getD_eq_getElem?_getD]

/-- Witness for C9: the short-list branch on a single candle and the Scenario
C decomposition of the last two candles. -/
theorem checkVolumeDivergence_spec_witness :
    (checkVolumeDivergence [{ close := 10, volume := 100 }] Direction.UP =
      { hasDivergence := false, reason := "Not enough data for divergence check" }) ∧
    ((checkVolumeDivergence
        ([{ close := 10, volume := 100 }, { close := 11, volume := 100 },
          { close := 12, volume := 100 }] ++
          [{ close := 13, volume := 100 }, { close := 14, volume := 80 }])
        Direction.UP).reason = "Weak Breakout: Price rising on declining volume") :=
  ⟨checkVolumeDivergence_spec.1 [{ close := 10, volume := 100 }] Direction.UP (by norm_num),
   (checkVolumeDivergence_spec.2.1
      [{ close := 10, volume := 100 }, { close := 11, volume := 100 },
        { close := 12, volume := 100 }]
      { close := 13, volume := 100 } { close := 14, volume := 80 }
      (by norm_num)).2.2 (by norm_num) (by norm_num)⟩
